import Mathlib

/-!
Verification of the Visualjournal pipeline (src/app.py): prompt construction,
generation client, dataset summarizer and scene wrapper, shallowly embedded
over `String`.  Machine strings are Lean `String`; the fallible pandas call
is embedded with `Except`.
-/

set_option maxRecDepth 100000

namespace VisualJournal

/-! Basic string infrastructure shared by the theorems. -/

/-- The double-quote character, U+0022. -/
def quoteChar : Char := '\x22'

/-- Containment of `needle` in `hay` as a contiguous substring. -/
def ContainsStr (hay needle : String) : Prop :=
  needle.data <:+: hay.data

instance (hay needle : String) : Decidable (ContainsStr hay needle) := by
  unfold ContainsStr
  infer_instance

/-- Number of occurrences of the character `c` in the string `s`. -/
def countChar (c : Char) (s : String) : Nat :=
  s.data.count c

/-- Number of (possibly overlapping) start positions at which the pattern
`pat` occurs in the character list `s`. -/
def countOcc (pat : List Char) : List Char → Nat
  | [] => 0
  | c :: rest => (if pat.isPrefixOf (c :: rest) then 1 else 0) + countOcc pat rest

/-- Whether the character list holds `a` immediately followed by `b`. -/
def hasPair (a b : Char) : List Char → Bool
  | [] => false
  | [_] => false
  | c :: d :: t => (c == a && d == b) || hasPair a b (d :: t)

/-! Generation client (src/app.py lines 16-45).

The process reads `GEMINI_API_KEY` from the environment with default `""`;
Python truthiness makes the empty string the "no credential" state.  The
remote SDK call `genai.GenerativeModel("gemini-1.5-pro").generate_content
(prompt, generation_config=temperature 0.9)` is embedded as an explicit
function argument `remote` from requests to response objects; a response
object is its optional `.text` attribute (absent models the
`AttributeError` branch) together with its `str(...)` rendering. -/

/-- Request sent to the remote model: model name, prompt, and the fixed
sampling temperature 0.9 (stored as tenths to stay in `Nat`). -/
structure GenRequest where
  model : String
  prompt : String
  temperatureTenths : Nat
deriving DecidableEq

/-- Shape of the remote response object: `textAttr = none` models a response
whose `.text` accessor raises `AttributeError`; `strRepr` is `str(response)`. -/
structure GenResponse where
  textAttr : Option String
  strRepr : String

/-- Request built by `generate_paperscript` (lines 35-39 of src/app.py). -/
def mkRequest (prompt : String) : GenRequest :=
  ⟨"gemini-1.5-pro", prompt, 9⟩

/-- Fallback PaperScript constant, lines 200-247 of src/app.py (braces,
apostrophes and the non-ASCII bytes of the original are written with
character escapes). -/
def DEFAULT_FALLBACK_PAPERSCRIPT : String :=
  "\n// Fallback PaperScript demo (no API key found)\n// Simple hand-drawn circle in a night sky.\n\nvar W = 900, H = 600;\nview.viewSize = new Size(W, H);\n\nvar bg = new Path.Rectangle(view.bounds);\nbg.fillColor = \x27#050b1a\x27;\n\nfunction j(a)\x7b return (Math.random()-0.5)*a; \x7d\n\nfunction handCircle(center, radius, strokeCol, fillCol)\x7b\n    var s = 40;\n    var p = new Path();\n    for (var i=0;i<s;i++)\x7b\n        var ang = 360/s * i;\n        var r = radius + j(radius*0.3);\n        p.add(center.add(new Point(\x7blength:r, angle:ang\x7d)));\n    \x7d\n    p.closed = true;\n    p.strokeColor = strokeCol || new Color(1,1,1,0.9);\n    p.strokeWidth = 1.4;\n    if (fillCol) p.fillColor = fillCol;\n    return p;\n\x7d\n\nvar center = new Point(W/2, H/2);\nvar moon = handCircle(center, 80,\n                      new Color(1,1,1,0.9),\n                      new Color(0.98,0.98,0.94, 0.95));\n\nvar title = new PointText(\x7b\n    point: new Point(40, 40),\n    content: \"Fallback Visual ¬∑ Add GEMINI_API_KEY to get custom doodles\",\n    justification: \x27left\x27,\n    fillColor: new Color(1,1,1,0.85),\n    fontFamily: \x27Helvetica\x27,\n    fontSize: 16\n\x7d);\n\nvar t = 0;\nfunction onFrame(event)\x7b\n    t += event.delta;\n    moon.scale(1 + Math.sin(t*0.8)*0.0015);\n    moon.fillColor.hue += 0.1;\n\x7d\n"

/-- Embedding of `generate_paperscript` (src/app.py lines 24-45).  `apiKey`
is the process-level `GEMINI_API_KEY` value (default `""` when the variable
is unset); `remote` is the network call, performed only on the credentialed
branch. -/
def generate_paperscript (apiKey : String) (remote : GenRequest → GenResponse)
    (prompt : String) : String :=
  if apiKey = "" then
    DEFAULT_FALLBACK_PAPERSCRIPT
  else
    let response := remote (mkRequest prompt)
    match response.textAttr with
    | some t => t
    | none => response.strRepr

/-! Scene wrapper (src/app.py lines 50-88).

`build_paper_html` is one Python f-string; it is embedded here as the same
string, split at the two `{canvas_id}` and one `{paperscript_code}`
interpolation points (plus the tag boundaries the theorems speak about).
Literal braces of the CSS (written `\x7b\x7d` in the original as doubled
braces) are written with character escapes. -/

/-- Everything of the wrapper page before the canvas open tag: doctype,
head with the paper.js CDN script and the inline CSS, body and container
div open tags. -/
def phHead : String :=
  "\n<!DOCTYPE html>\n<html>\n  <head>\n    <meta charset=\"UTF-8\" />\n    <script type=\"text/javascript\" src=\"https://cdnjs.cloudflare.com/ajax/libs/paper.js/0.12.15/paper-full.min.js\"></script>\n    <style>\n      html, body \x7b\n        margin: 0;\n        padding: 0;\n        background: #111;\n      \x7d\n      canvas \x7b\n        width: 100%;\n        height: 100%;\n      \x7d\n      #container \x7b\n        width: 100%;\n        height: 100vh;\n      \x7d\n    </style>\n  </head>\n  <body>\n    <div id=\"container\">\n      "

/-- Between the canvas element and the paperscript script open tag. -/
def phBetween : String := "</canvas>\n    </div>\n    "

/-- After the generated code: script close tag, body and html close tags and
the trailing indentation of the f-string. -/
def phTail : String := "\n    </script>\n  </body>\n</html>\n    "

/-- Embedding of `build_paper_html` (src/app.py lines 50-88): the wrapper
page with `canvas_id` interpolated twice (canvas `id` attribute and script
`canvas` attribute) and the generated code interpolated verbatim. -/
def build_paper_html (paperscript_code : String)
    (canvas_id : String := "dreamCanvas") : String :=
  phHead ++ "<canvas id=\"" ++ canvas_id ++ "\" resize>" ++ phBetween
    ++ "<script type=\"text/paperscript\" canvas=\"" ++ canvas_id ++ "\">"
    ++ "\n" ++ paperscript_code ++ phTail

/-! Prompt builder, journal mode (src/app.py lines 93-138): one f-string
with two interpolation points, `{context_type}` and `{user_text}`, the
latter wrapped in a triple-quote block. -/

/-- Journal prompt boilerplate up to the `{context_type}` interpolation. -/
def jpGoalHead : String :=
  "\nYou are a creative code generator that ONLY outputs PaperScript code\nfor the Paper.js library (no HTML, no markdown, no explanations).\n\nGoal:\n- Turn the following "

/-- Journal prompt boilerplate between the category and the opening
triple quote of the story context block. -/
def jpAfterCategory : String :=
  " journal text into a hand-drawn-style,\n  animated visualization, in the spirit of Giorgia Lupi / Data Humanism.\n\nRequirements:\n- Use an off-white paper-like background or a context-appropriate background\n  (for example, deep night blue for night oceans).\n- Use wobbly, imperfect lines and circles by jittering points, as if drawn by hand.\n- Use soft, semi-transparent colors with an ink/watercolor vibe.\n- Add gentle, meaningful motion via onFrame(event):\n  - calm scenes: slow floating or breathing motion\n  - intense scenes: more pronounced, but still organic motion\n\nStory context:\n"

/-- Journal prompt boilerplate after the closing triple quote: visual
design rules, PaperScript constraints and output contract (the non-ASCII
bytes of the original `caf√©` are kept). -/
def jpTail : String :=
  "\n\n\nVisual design rules:\n- Do NOT draw a calendar grid here unless the text clearly describes schedule-like data.\n- Instead, choose a metaphor that fits the story:\n  - If the story is about a dream of swimming across seas at night, use curves of the earth,\n    waves, stars, and two swimmers.\n  - If it is about a warm memory at a caf√©, use circular tables, warm light halos, etc.\n- Place any textual annotations as PointText in a subtle way (small caption or title).\n- The drawing must fill a reasonably large canvas, for example about 1000x650.\n  You can set it using:\n    view.viewSize = new Size(1000, 650);\n\nPaperScript constraints:\n- Assume Paper.js is already imported.\n- Do not include HTML or <script> tags.\n- Start directly with PaperScript (JavaScript-like) code.\n- Define an onFrame(event) handler if you want animation.\n\nOutput:\n- ONLY valid PaperScript code.\n    "

/-- Embedding of `build_journal_prompt` (src/app.py lines 93-138). -/
def build_journal_prompt (user_text : String) (context_type : String) : String :=
  jpGoalHead ++ context_type ++ jpAfterCategory
    ++ "\"\"\"" ++ user_text ++ "\"\"\"" ++ jpTail

/-! Dataset summarizer (src/app.py lines 140-151).

A pandas DataFrame is embedded as named, dtype-tagged columns plus ordered
rows of cells; a cell is an integer or a string.  `df.head(k).to_csv
(index=False)` is embedded as the standard CSV rendering (fields quoted,
with quote doubling, exactly when they hold a comma, quote, newline or
carriage return).  `df.describe(include="all", datetime_is_numeric=True)`
is an external pandas call: it is embedded by its documented behaviour —
it raises `ValueError("Cannot describe a DataFrame without columns")` on a
zero-column frame and otherwise returns a statistics table; the table body
(count / unique / top / freq rows) is modelled coarsely, since no claim
depends on the statistics text, only on when the call raises and on the
result being a deterministic function of the frame. -/

/-- Cell of a DataFrame: an integer or a string value. -/
inductive Cell where
  | intCell : Int → Cell
  | strCell : String → Cell
deriving DecidableEq

/-- Rendering of a cell as pandas prints it in CSV output. -/
def renderCell : Cell → String
  | .intCell n => toString n
  | .strCell s => s

/-- A pandas DataFrame: columns as (name, dtype string) pairs, plus rows. -/
structure DataFrame where
  columns : List (String × String)
  rows : List (List Cell)

/-- Whether pandas CSV output must quote the field. -/
def needsQuote (s : String) : Bool :=
  s.data.any (fun c => c == ',' || c == quoteChar || c == '\n' || c == '\r')

/-- Quote doubling inside a quoted CSV field. -/
def escapeQuotes : List Char → List Char
  | [] => []
  | c :: t =>
    if c = quoteChar then quoteChar :: quoteChar :: escapeQuotes t
    else c :: escapeQuotes t

/-- One CSV field, quoted when needed. -/
def csvField (s : String) : String :=
  if needsQuote s then "\"" ++ String.mk (escapeQuotes s.data) ++ "\"" else s

/-- Join with a separator, as Python `sep.join(...)`. -/
def joinSep (sep : String) : List String → String
  | [] => ""
  | [x] => x
  | x :: y :: t => x ++ sep ++ joinSep sep (y :: t)

/-- One CSV line (without the line terminator). -/
def csvLine (fields : List String) : String :=
  joinSep "," (fields.map csvField)

/-- Concatenation of a list of strings, as Python `"".join(...)`. -/
def concatAll : List String → String
  | [] => ""
  | s :: t => s ++ concatAll t

/-- Embedding of `df.head(max_rows).to_csv(index=False)`: header line with
the column names, then the first `max_rows` rows, each line terminated by a
newline. -/
def headCsv (df : DataFrame) (max_rows : Nat) : String :=
  csvLine (df.columns.map Prod.fst) ++ "\n"
    ++ concatAll ((df.rows.take max_rows).map
        (fun r => csvLine (r.map renderCell) ++ "\n"))

/-- Column `j` of the frame, rendered (missing entries of ragged rows are
rendered empty). -/
def colCells (df : DataFrame) (j : Nat) : List String :=
  df.rows.map (fun r => ((r.get? j).map renderCell).getD "")

/-- Most frequent value of a list (first-occurring among maximal counts),
used by the coarse model of the describe statistics. -/
def mostFrequent (l : List String) : String :=
  l.foldl (fun best x => if l.count x > l.count best then x else best) (l.headD "")

/-- Embedding of the external call `df.describe(include="all",
datetime_is_numeric=True).to_csv()`: raises on a frame without columns
(pandas `ValueError`), otherwise a CSV statistics table over all columns
(body modelled coarsely; no claim reads it). -/
def describe_csv (df : DataFrame) : Except String String :=
  if df.columns.isEmpty then
    Except.error "Cannot describe a DataFrame without columns"
  else
    let names := df.columns.map Prod.fst
    let idxs := List.range df.columns.length
    let statLine := fun (stat : String) (f : Nat → String) =>
      stat ++ "," ++ joinSep "," (idxs.map (fun j => csvField (f j))) ++ "\n"
    Except.ok (
      "," ++ joinSep "," (names.map csvField) ++ "\n"
      ++ statLine "count" (fun j => toString (colCells df j).length)
      ++ statLine "unique" (fun j => toString (colCells df j).dedup.length)
      ++ statLine "top" (fun j => mostFrequent (colCells df j))
      ++ statLine "freq" (fun j =>
          toString ((colCells df j).count (mostFrequent (colCells df j)))))

/-- Embedding of `summarize_dataframe` (src/app.py lines 140-151): columns
line, head CSV sample, then the describe statistics; the `ValueError` of
the describe call on a zero-column frame propagates (`Except.error`). -/
def summarize_dataframe (df : DataFrame) (max_rows : Nat := 5) :
    Except String String :=
  (describe_csv df).map (fun desc =>
    "Columns:\n"
      ++ joinSep ", " (df.columns.map (fun c => c.1 ++ " (" ++ c.2 ++ ")"))
      ++ "\n\nExample rows:\n" ++ headCsv df max_rows
      ++ "\n\nBasic stats (where numeric):\n" ++ desc)

/-! Prompt builder, table mode (src/app.py lines 153-195): calls the
summarizer at its default row cap and splices the summary between two
16-dash delimiter lines. -/

/-- Table prompt boilerplate up to the first dash delimiter line. -/
def tpHead : String :=
  "\nYou are a creative code generator that ONLY outputs PaperScript code\nfor the Paper.js library (no HTML, no markdown, no explanations).\n\nGoal:\n- Turn the following tabular dataset into a human, hand-drawn-style\n  grid or table visualization (Data Humanism style), similar to a calendar\n  or matrix but with doodles representing the data in each cell.\n\nDataset summary:\n"

/-- Table prompt boilerplate after the second dash delimiter line. -/
def tpTail : String :=
  "\n\nVisual design rules:\n- Use an off-white paper-like background.\n- Draw a grid or table that reflects the logical structure of the data:\n  - rows = records, days, items\n  - columns = features / categories\n- Use wobbly sketch lines instead of perfectly straight grid lines\n  (jitter the points on each line).\n- For each row/column cell, draw a small doodle that reflects:\n  - magnitude (size / length)\n  - category (color or shape)\n  - special values (e.g. missing, zero, high) with distinct marks.\n- Avoid standard bar chart / pie chart style; think hand-drawn calendar\n  or Dear Data postcard style.\n- Include a title and a small legend using PointText and a small\n  legend box in a corner.\n- Canvas can be about 1100x700:\n    view.viewSize = new Size(1100, 700);\n\nPaperScript constraints:\n- Assume Paper.js is already imported.\n- Do not include HTML or <script> tags.\n- Start directly with PaperScript code.\n- Define an onFrame(event) ONLY if it helps with subtle motion (e.g. breathing).\n\nOutput:\n- ONLY valid PaperScript code.\n    "

/-- Embedding of `build_table_prompt` (src/app.py lines 153-195); the
summarizer's exception propagates. -/
def build_table_prompt (df : DataFrame) : Except String String :=
  (summarize_dataframe df).map (fun summary =>
    tpHead ++ "----------------\n" ++ summary ++ "\n----------------" ++ tpTail)

/-- Demo remote service whose response object has no `.text` attribute. -/
def demoRemote : GenRequest → GenResponse := fun _ => ⟨none, "BEST-EFFORT"⟩

/-- Dataset with one column and no rows, for the C7 witness. -/
def emptyRowsDf : DataFrame := ⟨[("a", "float64")], []⟩

/-- Scenario dataset of the spec: columns `[age:int, name:string]` and rows
`[(5,"a"),(6,"b"),(7,"c")]`. -/
def scenarioDf : DataFrame :=
  ⟨[("age", "int64"), ("name", "object")],
   [[Cell.intCell 5, Cell.strCell "a"],
    [Cell.intCell 6, Cell.strCell "b"],
    [Cell.intCell 7, Cell.strCell "c"]]⟩

/-- Summary of the scenario dataset at the default cap. -/
def scenarioSummary : String :=
  match summarize_dataframe scenarioDf 5 with
  | Except.ok s => s
  | Except.error e => e

/-- Cleanliness of a frame for raw line counting: no rendered column name
or cell holds a newline (CSV would otherwise quote the newline into the
field and raw lines would not be data rows). -/
def CleanDf (df : DataFrame) : Prop :=
  (∀ c ∈ df.columns, '\n' ∉ c.1.data)
  ∧ ∀ r ∈ df.rows, ∀ cell ∈ r, '\n' ∉ (renderCell cell).data

instance (df : DataFrame) : Decidable (CleanDf df) := by
  unfold CleanDf
  infer_instance

/-! Helper lemmas used by the claim theorems. -/

theorem containsStr_of_eq (hay u needle v : String)
    (h : hay = u ++ needle ++ v) : ContainsStr hay needle := by
  subst h
  show needle.data <:+: (u ++ needle ++ v).data
  rw [String.data_append, String.data_append]
  exact List.infix_append _ _ _

theorem countChar_append (c : Char) (a b : String) :
    countChar c (a ++ b) = countChar c a + countChar c b := by
  simp [countChar, String.data_append]

theorem countOcc_append_notMem (a : Char) (p : List Char) :
    ∀ (x y : List Char), a ∉ x →
      countOcc (a :: p) (x ++ y) = countOcc (a :: p) y
  | [], _, _ => rfl
  | c :: t, y, hx => by
    have hca : (a == c) = false := by
      have : c ≠ a := fun h => hx (h ▸ List.mem_cons_self c t)
      simp [this.symm]
    have ht : a ∉ t := fun h => hx (List.mem_cons_of_mem _ h)
    show (if (a :: p).isPrefixOf (c :: (t ++ y)) then 1 else 0)
        + countOcc (a :: p) (t ++ y) = countOcc (a :: p) y
    rw [List.isPrefixOf]
    simp only [hca, Bool.false_and, Bool.false_eq_true, if_false, Nat.zero_add]
    exact countOcc_append_notMem a p t y ht

theorem countOcc_self_append (a : Char) (p y : List Char) (hp : a ∉ p) :
    countOcc (a :: p) ((a :: p) ++ y) = 1 + countOcc (a :: p) y := by
  show (if (a :: p).isPrefixOf (a :: (p ++ y)) then 1 else 0)
      + countOcc (a :: p) (p ++ y) = 1 + countOcc (a :: p) y
  have h1 : (a :: p).isPrefixOf (a :: (p ++ y)) = true := by
    rw [List.isPrefixOf_iff_prefix]
    have := List.prefix_append (a :: p) y
    rwa [List.cons_append] at this
  rw [h1, if_pos rfl, countOcc_append_notMem a p p y hp]

theorem countOcc_append_pair (a b : Char) (p : List Char) :
    ∀ (x y : List Char), hasPair a b x = false → x.getLast? ≠ some a →
      countOcc (a :: b :: p) (x ++ y) = countOcc (a :: b :: p) y
  | [], _, _, _ => rfl
  | [c], y, _, h2 => by
    have hca : (a == c) = false := by
      have : c ≠ a := fun h => h2 (by simp [h])
      simp [this.symm]
    show (if (a :: b :: p).isPrefixOf (c :: ([] ++ y)) then 1 else 0)
        + countOcc (a :: b :: p) ([] ++ y) = countOcc (a :: b :: p) y
    rw [List.isPrefixOf]
    simp only [hca, Bool.false_and, Bool.false_eq_true, if_false, List.nil_append,
      Nat.zero_add]
  | c :: d :: t, y, h1, h2 => by
    have h1' := h1
    rw [hasPair] at h1'
    have hcd : (c == a && d == b) = false := by
      cases hcc : (c == a && d == b) with
      | false => rfl
      | true => rw [hcc] at h1'; simp at h1'
    have hrest : hasPair a b (d :: t) = false := by
      cases hrr : hasPair a b (d :: t) with
      | false => rfl
      | true => rw [hrr] at h1'; simp at h1'
    have h2' : (d :: t).getLast? ≠ some a := by
      rwa [List.getLast?_cons_cons] at h2
    show (if (a :: b :: p).isPrefixOf (c :: ((d :: t) ++ y)) then 1 else 0)
        + countOcc (a :: b :: p) ((d :: t) ++ y) = countOcc (a :: b :: p) y
    have hpre : (a :: b :: p).isPrefixOf (c :: ((d :: t) ++ y)) = false := by
      rw [List.cons_append, List.isPrefixOf, List.isPrefixOf]
      rcases Bool.and_eq_false_iff.mp hcd with hc | hd
      · have : (a == c) = false := by
          cases hx : (a == c) with
          | false => rfl
          | true =>
            have : a = c := by simpa using hx
            rw [this] at hc; simp at hc
        simp [this]
      · have : (b == d) = false := by
          cases hx : (b == d) with
          | false => rfl
          | true =>
            have : b = d := by simpa using hx
            rw [this] at hd; simp at hd
        simp [this]
    simp only [hpre, Bool.false_eq_true, if_false, Nat.zero_add]
    exact countOcc_append_pair a b p (d :: t) y hrest h2'

theorem countOcc_pair_zero (a b : Char) (p x : List Char)
    (h1 : hasPair a b x = false) (h2 : x.getLast? ≠ some a) :
    countOcc (a :: b :: p) x = 0 := by
  have := countOcc_append_pair a b p x [] h1 h2
  rwa [List.append_nil] at this

/-! Theorems for the claims. -/

/-- C1: with no credential configured (the environment default `""` of
`GEMINI_API_KEY`), `generate_paperscript` returns exactly
`DEFAULT_FALLBACK_PAPERSCRIPT`, for every prompt; the network is never
consulted — the result is the fallback constant for every possible
`remote` function. -/
theorem claim_c1_no_credential_fallback
    (remote : GenRequest → GenResponse) (prompt : String) :
    generate_paperscript "" remote prompt = DEFAULT_FALLBACK_PAPERSCRIPT := rfl

/-- C5: with a credential present, `generate_paperscript` returns, for every
shape of the remote response, either the `.text` payload or — when the
`.text` accessor is unavailable — the best-effort string conversion
`str(response)`; being a total equation over all response shapes, nothing
escapes this boundary except what the `remote` call itself does. -/
theorem claim_c5_shape_fallback (apiKey : String)
    (remote : GenRequest → GenResponse) (prompt : String) (hkey : apiKey ≠ "") :
    generate_paperscript apiKey remote prompt =
      (match (remote (mkRequest prompt)).textAttr with
       | some t => t
       | none => (remote (mkRequest prompt)).strRepr) := by
  unfold generate_paperscript
  rw [if_neg hkey]

/-- C5 witness: a present credential and a `.text`-less response yield the
stringified response. -/
theorem claim_c5_witness :
    generate_paperscript "some-key" demoRemote "p" = "BEST-EFFORT" := by
  have h := claim_c5_shape_fallback "some-key" demoRemote "p" (by decide)
  simpa [demoRemote] using h

/-- C8: `build_journal_prompt` is deterministic — identical `(text,
category)` arguments give identical prompt strings (the embedding is a pure
function of its two arguments; no other state occurs in it). -/
theorem claim_c8_deterministic (t c t' c' : String) (ht : t = t') (hc : c = c') :
    build_journal_prompt t c = build_journal_prompt t' c' := by
  rw [ht, hc]

/-- C8 witness: two calls on a concrete pair agree. -/
theorem claim_c8_witness :
    build_journal_prompt "I swam" "dream" = build_journal_prompt "I swam" "dream" :=
  claim_c8_deterministic "I swam" "dream" "I swam" "dream" rfl rfl

/-- C3: for non-empty text, the journal prompt contains the input text
verbatim, and contains it inside the triple-quote delimited story-context
block. -/
theorem claim_c3_verbatim_text (user_text context_type : String)
    (hne : user_text ≠ "") :
    ContainsStr (build_journal_prompt user_text context_type) user_text
    ∧ ContainsStr (build_journal_prompt user_text context_type)
        ("\"\"\"" ++ user_text ++ "\"\"\"") := by
  constructor
  · apply containsStr_of_eq _
      (jpGoalHead ++ context_type ++ jpAfterCategory ++ "\"\"\"") user_text
      ("\"\"\"" ++ jpTail)
    simp [build_journal_prompt, String.append_assoc]
  · apply containsStr_of_eq _
      (jpGoalHead ++ context_type ++ jpAfterCategory)
      ("\"\"\"" ++ user_text ++ "\"\"\"") jpTail
    simp [build_journal_prompt, String.append_assoc]

/-- C3 witness: the scenario text appears verbatim and triple-quoted. -/
theorem claim_c3_witness :
    ContainsStr (build_journal_prompt "I swam across the sea at night" "dream")
        "I swam across the sea at night"
    ∧ ContainsStr (build_journal_prompt "I swam across the sea at night" "dream")
        ("\"\"\"" ++ "I swam across the sea at night" ++ "\"\"\"") :=
  claim_c3_verbatim_text "I swam across the sea at night" "dream" (by decide)

/-- C9: for every script and id, the wrapper output carries `canvas_id` in
the two coordinated places — the `id` attribute of the canvas element and
the `canvas` attribute of the `text/paperscript` script element — and the
default `canvas_id` is `dreamCanvas`. -/
theorem claim_c9_coordinated_canvas_id (code canvas_id : String) :
    ContainsStr (build_paper_html code canvas_id)
        ("<canvas id=\"" ++ canvas_id ++ "\" resize>")
    ∧ ContainsStr (build_paper_html code canvas_id)
        ("<script type=\"text/paperscript\" canvas=\"" ++ canvas_id ++ "\">")
    ∧ build_paper_html code = build_paper_html code "dreamCanvas" := by
  refine ⟨?_, ?_, rfl⟩
  · apply containsStr_of_eq _ phHead
      ("<canvas id=\"" ++ canvas_id ++ "\" resize>")
      (phBetween ++ "<script type=\"text/paperscript\" canvas=\"" ++ canvas_id
        ++ "\">" ++ "\n" ++ code ++ phTail)
    simp [build_paper_html, String.append_assoc]
  · apply containsStr_of_eq _
      (phHead ++ "<canvas id=\"" ++ canvas_id ++ "\" resize>" ++ phBetween)
      ("<script type=\"text/paperscript\" canvas=\"" ++ canvas_id ++ "\">")
      ("\n" ++ code ++ phTail)
    simp only [build_paper_html, String.append_assoc]

/-- C7 counterexample: the dataset with zero rows and zero columns — within
the claim's stated scope `columns ≥ 0` — makes `summarize_dataframe`
propagate the pandas `ValueError` instead of returning a string. -/
theorem claim_c7_counterexample :
    summarize_dataframe ⟨[], []⟩ 5
      = Except.error "Cannot describe a DataFrame without columns" := rfl

/-- C7 (amended): for every dataset with zero rows and at least one column,
`summarize_dataframe` returns a string without raising, for every row cap. -/
theorem claim_c7_amended (df : DataFrame) (k : Nat)
    (hrows : df.rows = []) (hcols : df.columns ≠ []) :
    ∃ s, summarize_dataframe df k = Except.ok s := by
  have hne : df.columns.isEmpty = false := by
    rcases hc : df.columns with _ | ⟨c0, cs⟩
    · exact absurd hc hcols
    · rfl
  have hdesc : ∃ d, describe_csv df = Except.ok d := by
    unfold describe_csv
    rw [hne]
    simp only [Bool.false_eq_true, if_false]
    exact ⟨_, rfl⟩
  rcases hdesc with ⟨d, hd⟩
  refine ⟨"Columns:\n"
      ++ joinSep ", " (df.columns.map (fun c => c.1 ++ " (" ++ c.2 ++ ")"))
      ++ "\n\nExample rows:\n" ++ headCsv df k
      ++ "\n\nBasic stats (where numeric):\n" ++ d, ?_⟩
  simp only [summarize_dataframe, hd, Except.map]

/-- C7 witness: the amended statement holds at a concrete zero-row,
one-column frame. -/
theorem claim_c7_witness :
    emptyRowsDf.rows = [] ∧ emptyRowsDf.columns ≠ []
    ∧ ∃ s, summarize_dataframe emptyRowsDf 5 = Except.ok s :=
  ⟨rfl, by decide, claim_c7_amended emptyRowsDf 5 rfl (by decide)⟩

/-- C10: when the summarizer succeeds at its default cap of 5,
`build_table_prompt` succeeds and its prompt contains
`summarize_dataframe(df, 5)` verbatim between the two 16-dash delimiter
lines. -/
theorem claim_c10_compose (df : DataFrame) (s : String)
    (h : summarize_dataframe df 5 = Except.ok s) :
    ∃ p, build_table_prompt df = Except.ok p
      ∧ ContainsStr p ("----------------\n" ++ s ++ "\n----------------") := by
  refine ⟨tpHead ++ "----------------\n" ++ s ++ "\n----------------" ++ tpTail,
    ?_, ?_⟩
  · show (summarize_dataframe df).map _ = _
    rw [show summarize_dataframe df = summarize_dataframe df 5 from rfl, h]
    rfl
  · apply containsStr_of_eq _ tpHead
      ("----------------\n" ++ s ++ "\n----------------") tpTail
    simp [String.append_assoc]

/-- C10 witness: the composition holds at the scenario dataset. -/
theorem claim_c10_witness :
    ∃ p, build_table_prompt scenarioDf = Except.ok p
      ∧ ContainsStr p
          ("----------------\n" ++ scenarioSummary ++ "\n----------------") :=
  claim_c10_compose scenarioDf scenarioSummary rfl

/-- Occurrence count of the canvas open-tag pattern across the wrapper
page, for an abstract pattern tail and abstract id/code character lists
free of the character `<`. -/
theorem countOcc_wrapper_aux (q idL codeL : List Char)
    (hq : '<' ∉ 'c' :: q) (hid : '<' ∉ idL) (hcode : '<' ∉ codeL) :
    countOcc ('<' :: 'c' :: q)
      (phHead.data ++ (('<' :: 'c' :: q) ++ (" resize>".data
        ++ (phBetween.data ++ ("<script type=\"text/paperscript\" canvas=\"".data
          ++ (idL ++ ("\">".data ++ ("\n".data ++ (codeL ++ phTail.data)))))))))
      = 1 := by
  rw [countOcc_append_pair '<' 'c' q phHead.data _ (by decide) (by decide)]
  rw [countOcc_self_append '<' ('c' :: q) _ hq]
  rw [countOcc_append_notMem '<' ('c' :: q) " resize>".data _ (by decide)]
  rw [countOcc_append_pair '<' 'c' q phBetween.data _ (by decide) (by decide)]
  rw [countOcc_append_pair '<' 'c' q
    "<script type=\"text/paperscript\" canvas=\"".data _ (by decide) (by decide)]
  rw [countOcc_append_notMem '<' ('c' :: q) idL _ hid]
  rw [countOcc_append_notMem '<' ('c' :: q) "\">".data _ (by decide)]
  rw [countOcc_append_notMem '<' ('c' :: q) "\n".data _ (by decide)]
  rw [countOcc_append_notMem '<' ('c' :: q) codeL _ hcode]
  rw [countOcc_pair_zero '<' 'c' q phTail.data (by decide) (by decide)]

/-- C2 counterexample: the script text is inserted verbatim, so a script
that itself holds a canvas element with the same identifier makes the
wrapper output hold two canvas elements with that identifier — the claim's
"exactly one canvas element", quantified over every script string, fails. -/
theorem claim_c2_counterexample :
    countOcc ("<canvas id=\"" ++ "dreamCanvas" ++ "\"").data
      (build_paper_html "<canvas id=\"dreamCanvas\" resize></canvas>"
        "dreamCanvas").data = 2 := by
  decide

/-- C2 (amended): for every script and id that do not themselves hold the
character `<` (so the verbatim-inserted script cannot introduce markup of
its own), the wrapper output holds exactly one occurrence of a canvas
element whose `id` attribute equals the id — and the script string is
contained verbatim, with no escaping, for these inputs as for all others. -/
theorem claim_c2_single_canvas (code canvas_id : String)
    (hcode : '<' ∉ code.data) (hid : '<' ∉ canvas_id.data) :
    countOcc ("<canvas id=\"" ++ canvas_id ++ "\"").data
        (build_paper_html code canvas_id).data = 1
    ∧ ContainsStr (build_paper_html code canvas_id) code := by
  have e1 : ("<canvas id=\"" : String).data
      = '<' :: 'c' :: ("anvas id=\"" : String).data := rfl
  have e2 : ("\"" : String).data = [quoteChar] := rfl
  have hpat : ("<canvas id=\"" ++ canvas_id ++ "\"").data
      = '<' :: 'c' :: ("anvas id=\"".data ++ (canvas_id.data ++ [quoteChar])) := by
    rw [String.data_append, String.data_append, e1, e2]
    simp only [List.cons_append, List.append_assoc]
  have hq : '<' ∉ 'c' :: ("anvas id=\"".data ++ (canvas_id.data ++ [quoteChar])) := by
    intro hmem
    rcases List.mem_cons.mp hmem with h | h
    · exact absurd h (by decide)
    rcases List.mem_append.mp h with h | h
    · exact absurd h (by decide)
    rcases List.mem_append.mp h with h | h
    · exact hid h
    · exact absurd h (by decide)
  have e3 : ("\" resize>" : String).data
      = ("\"" : String).data ++ (" resize>" : String).data := rfl
  have hdata : (build_paper_html code canvas_id).data
      = phHead.data ++ (("<canvas id=\"" ++ canvas_id ++ "\"").data
        ++ (" resize>".data ++ (phBetween.data
          ++ ("<script type=\"text/paperscript\" canvas=\"".data
            ++ (canvas_id.data ++ ("\">".data
              ++ ("\n".data ++ (code.data ++ phTail.data)))))))) := by
    simp only [build_paper_html, String.data_append, e3, List.append_assoc]
    rfl
  constructor
  · rw [hdata, hpat]
    exact countOcc_wrapper_aux _ canvas_id.data code.data hq hid hcode
  · apply containsStr_of_eq _
      (phHead ++ "<canvas id=\"" ++ canvas_id ++ "\" resize>" ++ phBetween
        ++ "<script type=\"text/paperscript\" canvas=\"" ++ canvas_id
        ++ "\">" ++ "\n") code phTail
    simp only [build_paper_html, String.append_assoc]

/-- C2 witness: a plain script and the default id give exactly one canvas
element carrying the id, with the script embedded verbatim. -/
theorem claim_c2_witness :
    countOcc ("<canvas id=\"" ++ "dreamCanvas" ++ "\"").data
        (build_paper_html "var x = 1;" "dreamCanvas").data = 1
    ∧ ContainsStr (build_paper_html "var x = 1;" "dreamCanvas") "var x = 1;" :=
  claim_c2_single_canvas "var x = 1;" "dreamCanvas" (by decide) (by decide)

/-- C6 counterexample: both prompt templates contain the literal markup tag
`<script>` — inside the instruction "Do not include HTML or <script> tags."
— so the prompt built from markup-free inputs is not markup-free as a
string; here it is exhibited on the journal prompt for plain inputs. -/
theorem claim_c6_counterexample :
    ContainsStr (build_journal_prompt "hello" "dream") "<script>" := by
  apply containsStr_of_eq _
    (jpGoalHead ++ "dream" ++ jpAfterCategory ++ "\"\"\"" ++ "hello" ++ "\"\"\""
      ++ "\n\n\nVisual design rules:\n- Do NOT draw a calendar grid here unless the text clearly describes schedule-like data.\n- Instead, choose a metaphor that fits the story:\n  - If the story is about a dream of swimming across seas at night, use curves of the earth,\n    waves, stars, and two swimmers.\n  - If it is about a warm memory at a caf√©, use circular tables, warm light halos, etc.\n- Place any textual annotations as PointText in a subtle way (small caption or title).\n- The drawing must fill a reasonably large canvas, for example about 1000x650.\n  You can set it using:\n    view.viewSize = new Size(1000, 650);\n\nPaperScript constraints:\n- Assume Paper.js is already imported.\n- Do not include HTML or ")
    "<script>"
    " tags.\n- Start directly with PaperScript (JavaScript-like) code.\n- Define an onFrame(event) handler if you want animation.\n\nOutput:\n- ONLY valid PaperScript code.\n    "
  simp only [build_journal_prompt, String.append_assoc]
  rfl

/-- C6 (amended): apart from the one literal `<script>` mention in the
fixed no-markup instruction, the prompts hold no markup beyond what the
embedded inputs themselves carry: the journal prompt holds exactly one `<`
character more than its two inputs, and the table prompt exactly one `<`
more than the embedded dataset summary. -/
theorem claim_c6_no_markup_amended :
    (∀ user_text context_type,
      countChar '<' (build_journal_prompt user_text context_type)
        = countChar '<' user_text + countChar '<' context_type + 1)
    ∧ (∀ df s, summarize_dataframe df = Except.ok s →
        ∃ p, build_table_prompt df = Except.ok p
          ∧ countChar '<' p = countChar '<' s + 1) := by
  constructor
  · intro t c
    simp only [build_journal_prompt, countChar_append]
    have h1 : countChar '<' jpGoalHead = 0 := by decide
    have h2 : countChar '<' jpAfterCategory = 0 := by decide
    have h3 : countChar '<' jpTail = 1 := by decide
    have h4 : countChar '<' "\"\"\"" = 0 := by decide
    rw [h1, h2, h3, h4]
    omega
  · intro df s hs
    refine ⟨tpHead ++ "----------------\n" ++ s ++ "\n----------------" ++ tpTail,
      ?_, ?_⟩
    · simp only [build_table_prompt, hs, Except.map]
    · simp only [countChar_append]
      have h1 : countChar '<' tpHead = 0 := by decide
      have h2 : countChar '<' tpTail = 1 := by decide
      have h3 : countChar '<' "----------------\n" = 0 := by decide
      have h4 : countChar '<' "\n----------------" = 0 := by decide
      rw [h1, h2, h3, h4]
      omega

/-- C6 witness: the per-call `<`-accounting at concrete inputs, for both
prompt builders (the one extra `<` is the mentioned `<script>` tag of the
instruction). -/
theorem claim_c6_witness :
    countChar '<' (build_journal_prompt "hello" "dream")
        = countChar '<' "hello" + countChar '<' "dream" + 1
    ∧ ∃ p, build_table_prompt scenarioDf = Except.ok p
        ∧ countChar '<' p = countChar '<' scenarioSummary + 1 :=
  ⟨claim_c6_no_markup_amended.1 "hello" "dream",
   claim_c6_no_markup_amended.2 scenarioDf scenarioSummary rfl⟩

theorem nlFree_escapeQuotes : ∀ (l : List Char), '\n' ∉ l → '\n' ∉ escapeQuotes l
  | [], _ => by simp [escapeQuotes]
  | c :: t, h => by
    have hct : '\n' ∉ t := fun hm => h (List.mem_cons_of_mem _ hm)
    have hc : c ≠ '\n' := fun hcc => h (by rw [hcc]; exact List.mem_cons_self _ _)
    rw [escapeQuotes]
    by_cases hcq : c = quoteChar
    · rw [if_pos hcq]
      intro hm
      rcases List.mem_cons.mp hm with h1 | h1
      · exact absurd h1 (by decide)
      rcases List.mem_cons.mp h1 with h2 | h2
      · exact absurd h2 (by decide)
      · exact nlFree_escapeQuotes t hct h2
    · rw [if_neg hcq]
      intro hm
      rcases List.mem_cons.mp hm with h1 | h1
      · exact hc h1.symm
      · exact nlFree_escapeQuotes t hct h1

theorem nlFree_csvField (s : String) (h : '\n' ∉ s.data) :
    '\n' ∉ (csvField s).data := by
  rw [csvField]
  by_cases hq : needsQuote s
  · rw [if_pos hq, String.data_append, String.data_append]
    intro hm
    rcases List.mem_append.mp hm with h1 | h1
    · rcases List.mem_append.mp h1 with h2 | h2
      · exact absurd h2 (by decide)
      · exact nlFree_escapeQuotes s.data h h2
    · exact absurd h1 (by decide)
  · rw [if_neg hq]
    exact h

theorem nlFree_joinSep_comma :
    ∀ (l : List String), (∀ f ∈ l, '\n' ∉ f.data) →
      '\n' ∉ (joinSep "," l).data
  | [], _ => by simp [joinSep]
  | [x], h => by
    rw [joinSep]
    exact h x (List.mem_singleton.mpr rfl)
  | x :: y :: t, h => by
    rw [joinSep, String.data_append, String.data_append]
    intro hm
    rcases List.mem_append.mp hm with h1 | h1
    · rcases List.mem_append.mp h1 with h2 | h2
      · exact h x (List.mem_cons_self _ _) h2
      · exact absurd h2 (by decide)
    · exact nlFree_joinSep_comma (y :: t)
        (fun f hf => h f (List.mem_cons_of_mem _ hf)) h1

theorem nlFree_csvLine (fields : List String)
    (h : ∀ f ∈ fields, '\n' ∉ f.data) : '\n' ∉ (csvLine fields).data := by
  apply nlFree_joinSep_comma
  intro f hf
  rcases List.mem_map.mp hf with ⟨g, hg, rfl⟩
  exact nlFree_csvField g (h g hg)

theorem countChar_eq_zero (c : Char) (s : String) (h : c ∉ s.data) :
    countChar c s = 0 :=
  List.count_eq_zero.mpr h

theorem countChar_concatAll_ones :
    ∀ (l : List String), (∀ s ∈ l, countChar '\n' s = 1) →
      countChar '\n' (concatAll l) = l.length
  | [], _ => rfl
  | s :: t, h => by
    rw [concatAll, countChar_append, h s (List.mem_cons_self _ _),
      countChar_concatAll_ones t (fun x hx => h x (List.mem_cons_of_mem _ hx)),
      List.length_cons]
    omega

/-- Raw newline count of the head-CSV sample: one header line plus exactly
`min max_rows rowcount` data rows, for clean frames. -/
theorem headCsv_newlines (df : DataFrame) (k : Nat) (h : CleanDf df) :
    countChar '\n' (headCsv df k) = min k df.rows.length + 1 := by
  rw [headCsv, countChar_append, countChar_append]
  have hhdr : countChar '\n' (csvLine (df.columns.map Prod.fst)) = 0 := by
    apply countChar_eq_zero
    apply nlFree_csvLine
    intro f hf
    rcases List.mem_map.mp hf with ⟨col, hcol, rfl⟩
    exact h.1 col hcol
  have hnl : countChar '\n' "\n" = 1 := by decide
  have hrows : countChar '\n'
      (concatAll ((df.rows.take k).map
        (fun r => csvLine (r.map renderCell) ++ "\n"))) = min k df.rows.length := by
    rw [countChar_concatAll_ones, List.length_map, List.length_take]
    intro s hs
    rcases List.mem_map.mp hs with ⟨r, hr, rfl⟩
    have hrmem : r ∈ df.rows := List.mem_of_mem_take hr
    rw [countChar_append, hnl]
    have : countChar '\n' (csvLine (r.map renderCell)) = 0 := by
      apply countChar_eq_zero
      apply nlFree_csvLine
      intro f hf
      rcases List.mem_map.mp hf with ⟨cell, hcell, rfl⟩
      exact h.2 r hrmem cell hcell
    rw [this]
  rw [hhdr, hnl, hrows]
  omega

/-- C4: for every clean dataset and cap, the row-sample section shows
exactly `min k rowcount` data rows (one newline per data row after the
header line); the sample section sits inside the summarizer output; the
default cap is 5; and on the spec's scenario dataset with cap 2 the sample
holds exactly the first two rows and not the third. -/
theorem claim_c4_sample_rows :
    (∀ df k, CleanDf df →
      countChar '\n' (headCsv df k) = min k df.rows.length + 1)
    ∧ (∀ df k s, summarize_dataframe df k = Except.ok s →
        ContainsStr s (headCsv df k))
    ∧ (∀ df, summarize_dataframe df = summarize_dataframe df 5)
    ∧ headCsv scenarioDf 2 = "age,name\n5,a\n6,b\n"
    ∧ ContainsStr (headCsv scenarioDf 2) "5,a"
    ∧ ContainsStr (headCsv scenarioDf 2) "6,b"
    ∧ ¬ ContainsStr (headCsv scenarioDf 2) "7,c" := by
  refine ⟨headCsv_newlines, ?_, fun _ => rfl, by decide, by decide, by decide,
    by decide⟩
  intro df k s hs
  rcases hdesc : describe_csv df with e | d
  · rw [summarize_dataframe, hdesc] at hs
    exact absurd hs (by simp [Except.map])
  · rw [summarize_dataframe, hdesc] at hs
    simp only [Except.map, Except.ok.injEq] at hs
    subst hs
    apply containsStr_of_eq _
      ("Columns:\n"
        ++ joinSep ", " (df.columns.map (fun c => c.1 ++ " (" ++ c.2 ++ ")"))
        ++ "\n\nExample rows:\n")
      (headCsv df k)
      ("\n\nBasic stats (where numeric):\n" ++ d)
    simp only [String.append_assoc]

/-- C4 witness: the line-count bound instantiated at the scenario dataset
with cap 2. -/
theorem claim_c4_witness :
    countChar '\n' (headCsv scenarioDf 2) = min 2 scenarioDf.rows.length + 1 :=
  claim_c4_sample_rows.1 scenarioDf 2 (by decide)

end VisualJournal
